import Mathlib

/-!
Shallow embedding of the mikrotik-mcp MikroTik RouterOS adapter.

The repository's domain modules build RouterOS CLI command strings from
typed parameters, submit them through one connector
(`execute_mikrotik_command`), and classify the raw textual response as
success or failure by a case-insensitive substring test.

Embedding conventions:
* Python `Optional[T]` parameters become `Option T`; a parameter left
  unset is `none`.
* Python `str` is `String`, `int` is `Int`, `bool` is `Bool`.
* The connector is modelled as an oracle `device : String → String`
  mapping the submitted command to the raw response; domain functions
  take it as their first argument.
* Python truthiness guards (`if x:`) on optional values are modelled by
  the `pyTruthy*` predicates: `None`, `0`, `""` and `False` are falsy.
* `x is not None` guards are modelled by matching on the `Option`.
* Each repeated `if <guard>: cmd += f" key=..."` line of the source is
  expressed through one of the `add*` combinators below, which record
  the guard kind (truthiness vs. not-None) and the quoting mode
  (quoted string, unquoted string, numeric, yes/no boolean).
-/

namespace MikrotikMCP

/-- Decidable prefix test on character lists. -/
def listPrefix : List Char → List Char → Bool
  | [], _ => true
  | _ :: _, [] => false
  | a :: as, b :: bs => a == b && listPrefix as bs

/-- Decidable infix (substring) test on character lists. -/
def listInfix (pat : List Char) : List Char → Bool
  | [] => pat.isEmpty
  | c :: cs => listPrefix pat (c :: cs) || listInfix pat cs

/-- Python's `pat in s` substring containment on strings. -/
def strContains (s pat : String) : Bool := listInfix pat.data s.data

/-- Python's `str.lower()` (ASCII case folding, which is all the
classification substrings need). -/
def pyLower (s : String) : String := String.mk (s.data.map Char.toLower)

/-- Python truthiness of an `Optional[str]`: `None` and `""` are falsy. -/
def pyTruthyStr : Option String → Bool
  | none => false
  | some s => !(s == "")

/-- Python truthiness of an `Optional[int]`: `None` and `0` are falsy. -/
def pyTruthyInt : Option Int → Bool
  | none => false
  | some n => !(n == 0)

/-- Python truthiness of an `Optional[bool]`: `None` and `False` are falsy. -/
def pyTruthyBool : Option Bool → Bool
  | none => false
  | some b => b

/-- `if v: cmd += f' key="{v}"'` — truthiness-guarded quoted string attribute. -/
def addStrQ (cmd key : String) : Option String → String
  | some s => if s == "" then cmd else cmd ++ (" " ++ key ++ "=\"" ++ s ++ "\"")
  | none => cmd

/-- `if v: cmd += f" key={v}"` — truthiness-guarded unquoted string attribute. -/
def addStrU (cmd key : String) : Option String → String
  | some s => if s == "" then cmd else cmd ++ (" " ++ key ++ "=" ++ s)
  | none => cmd

/-- `if v: cmd += f" key={v}"` — truthiness-guarded numeric attribute
(`0` is falsy, so it is omitted). -/
def addIntTruthy (cmd key : String) : Option Int → String
  | some n => if n == 0 then cmd else cmd ++ (" " ++ key ++ "=" ++ toString n)
  | none => cmd

/-- `if v is not None: cmd += f" key={v}"` — not-None-guarded numeric attribute. -/
def addIntOpt (cmd key : String) : Option Int → String
  | some n => cmd ++ (" " ++ key ++ "=" ++ toString n)
  | none => cmd

/-- `if v is not None: cmd += f" key={'yes' if v else 'no'}"`. -/
def addBoolOpt (cmd key : String) : Option Bool → String
  | some b => cmd ++ (" " ++ key ++ "=" ++ (if b then "yes" else "no"))
  | none => cmd

/-- The shared response classification: the lower-cased raw response
contains `"failure:"` or `"error"`. Inlined at the end of every
classifying domain function as
`if "failure:" in result.lower() or "error" in result.lower()`. -/
def isFailureResponse (r : String) : Bool :=
  strContains (pyLower r) "failure:" || strContains (pyLower r) "error"

/-! ## scope/bridge.py -/

/-- Command built by `mikrotik_create_bridge` (scope/bridge.py). -/
def mikrotik_create_bridge_cmd (name : String) (mtu : Option Int)
    (arp arp_timeout ageing_time : Option String) (priority : Option Int)
    (protocol_mode : Option String) (vlan_filtering : Option Bool)
    (comment : Option String) (disabled : Option Bool) : String :=
  let cmd := "/interface bridge add name=\"" ++ name ++ "\""
  let cmd := addIntTruthy cmd "mtu" mtu
  let cmd := addStrU cmd "arp" arp
  let cmd := addStrU cmd "arp-timeout" arp_timeout
  let cmd := addStrU cmd "ageing-time" ageing_time
  let cmd := addIntOpt cmd "priority" priority
  let cmd := addStrU cmd "protocol-mode" protocol_mode
  let cmd := addBoolOpt cmd "vlan-filtering" vlan_filtering
  let cmd := addStrQ cmd "comment" comment
  let cmd := addBoolOpt cmd "disabled" disabled
  cmd

/-- `mikrotik_create_bridge` (scope/bridge.py): build, submit, classify. -/
def mikrotik_create_bridge (device : String → String) (name : String)
    (mtu : Option Int) (arp arp_timeout ageing_time : Option String)
    (priority : Option Int) (protocol_mode : Option String)
    (vlan_filtering : Option Bool) (comment : Option String)
    (disabled : Option Bool) : String :=
  let result := device (mikrotik_create_bridge_cmd name mtu arp arp_timeout
    ageing_time priority protocol_mode vlan_filtering comment disabled)
  if isFailureResponse result then "Failed to create bridge: " ++ result
  else "Bridge '" ++ name ++ "' created successfully"

/-- Command built by `mikrotik_list_bridges` (scope/bridge.py).
`name_filter.getD ""` is only evaluated under `pyTruthyStr name_filter`,
i.e. when `name_filter` is `some` of a nonempty string. -/
def mikrotik_list_bridges_cmd (name_filter : Option String)
    (disabled_only : Option Bool) : String :=
  let cmd := "/interface bridge print"
  if pyTruthyStr name_filter then
    cmd ++ (" where name~\"" ++ name_filter.getD "" ++ "\"")
  else if pyTruthyBool disabled_only then cmd ++ " where disabled=yes"
  else cmd

/-- `mikrotik_list_bridges` (scope/bridge.py). -/
def mikrotik_list_bridges (device : String → String)
    (name_filter : Option String) (disabled_only : Option Bool) : String :=
  let result := device (mikrotik_list_bridges_cmd name_filter disabled_only)
  if isFailureResponse result then "Failed to list bridges: " ++ result
  else "Bridge Interfaces:\n\n" ++ result

/-- Command built by `mikrotik_remove_bridge` (scope/bridge.py). -/
def mikrotik_remove_bridge_cmd (name : String) : String :=
  "/interface bridge remove [find name=\"" ++ name ++ "\"]"

/-- `mikrotik_remove_bridge` (scope/bridge.py). -/
def mikrotik_remove_bridge (device : String → String) (name : String) : String :=
  let result := device (mikrotik_remove_bridge_cmd name)
  if isFailureResponse result then "Failed to remove bridge: " ++ result
  else "Bridge '" ++ name ++ "' removed successfully"

/-- Command built by `mikrotik_add_bridge_port` (scope/bridge.py). -/
def mikrotik_add_bridge_port_cmd (bridge interface : String)
    (pvid priority path_cost : Option Int) (edge : Option Bool)
    (point_to_point : Option String) (horizon : Option Int)
    (comment : Option String) (disabled : Option Bool) : String :=
  let cmd := "/interface bridge port add bridge=\"" ++ bridge ++
    "\" interface=\"" ++ interface ++ "\""
  let cmd := addIntOpt cmd "pvid" pvid
  let cmd := addIntOpt cmd "priority" priority
  let cmd := addIntOpt cmd "path-cost" path_cost
  let cmd := addBoolOpt cmd "edge" edge
  let cmd := addStrU cmd "point-to-point" point_to_point
  let cmd := addIntOpt cmd "horizon" horizon
  let cmd := addStrQ cmd "comment" comment
  let cmd := addBoolOpt cmd "disabled" disabled
  cmd

/-- `mikrotik_add_bridge_port` (scope/bridge.py). -/
def mikrotik_add_bridge_port (device : String → String)
    (bridge interface : String) (pvid priority path_cost : Option Int)
    (edge : Option Bool) (point_to_point : Option String)
    (horizon : Option Int) (comment : Option String)
    (disabled : Option Bool) : String :=
  let result := device (mikrotik_add_bridge_port_cmd bridge interface pvid
    priority path_cost edge point_to_point horizon comment disabled)
  if isFailureResponse result then "Failed to add bridge port: " ++ result
  else "Interface '" ++ interface ++ "' added to bridge '" ++ bridge ++
    "' successfully"

/-- Command built by `mikrotik_remove_bridge_port` (scope/bridge.py). -/
def mikrotik_remove_bridge_port_cmd (interface : String) : String :=
  "/interface bridge port remove [find interface=\"" ++ interface ++ "\"]"

/-- Command built by `mikrotik_add_bridge_vlan` (scope/bridge.py);
`vlan_ids` is interpolated unquoted. -/
def mikrotik_add_bridge_vlan_cmd (bridge vlan_ids : String)
    (tagged untagged comment : Option String)
    (disabled : Option Bool) : String :=
  let cmd := "/interface bridge vlan add bridge=\"" ++ bridge ++
    "\" vlan-ids=" ++ vlan_ids
  let cmd := addStrQ cmd "tagged" tagged
  let cmd := addStrQ cmd "untagged" untagged
  let cmd := addStrQ cmd "comment" comment
  let cmd := addBoolOpt cmd "disabled" disabled
  cmd

/-! ## scope/hotspot.py -/

/-- Command built by `mikrotik_create_hotspot_server` (scope/hotspot.py). -/
def mikrotik_create_hotspot_server_cmd (name interface address_pool : String)
    (profile : Option String) (disabled : Option Bool) : String :=
  let cmd := "/ip hotspot add name=\"" ++ name ++ "\" interface=\"" ++
    interface ++ "\" address-pool=\"" ++ address_pool ++ "\""
  let cmd := addStrQ cmd "profile" profile
  let cmd := addBoolOpt cmd "disabled" disabled
  cmd

/-- `mikrotik_create_hotspot_server` (scope/hotspot.py). -/
def mikrotik_create_hotspot_server (device : String → String)
    (name interface address_pool : String) (profile : Option String)
    (disabled : Option Bool) : String :=
  let result := device (mikrotik_create_hotspot_server_cmd name interface
    address_pool profile disabled)
  if isFailureResponse result then
    "Failed to create hotspot server: " ++ result
  else "Hotspot server '" ++ name ++ "' created successfully"

/-- Command built by `mikrotik_remove_hotspot_user` (scope/hotspot.py). -/
def mikrotik_remove_hotspot_user_cmd (name : String) : String :=
  "/ip hotspot user remove [find name=\"" ++ name ++ "\"]"

/-- Command built by `mikrotik_remove_hotspot_active` (scope/hotspot.py). -/
def mikrotik_remove_hotspot_active_cmd (user : String) : String :=
  "/ip hotspot active remove [find user=\"" ++ user ++ "\"]"

/-! ## scope/certificate.py -/

/-- Command built by `mikrotik_create_certificate` (scope/certificate.py).
`key_size` and `days_valid` are guarded by Python truthiness (`if key_size:`),
so a supplied `0` is omitted. -/
def mikrotik_create_certificate_cmd (name common_name : String)
    (key_size days_valid : Option Int)
    (key_usage subject_alt_name country state locality organization unit :
      Option String) : String :=
  let cmd := "/certificate add name=\"" ++ name ++ "\" common-name=\"" ++
    common_name ++ "\""
  let cmd := addIntTruthy cmd "key-size" key_size
  let cmd := addIntTruthy cmd "days-valid" days_valid
  let cmd := addStrQ cmd "key-usage" key_usage
  let cmd := addStrQ cmd "subject-alt-name" subject_alt_name
  let cmd := addStrQ cmd "country" country
  let cmd := addStrQ cmd "state" state
  let cmd := addStrQ cmd "locality" locality
  let cmd := addStrQ cmd "organization" organization
  let cmd := addStrQ cmd "unit" unit
  cmd

/-- Command built by `mikrotik_remove_certificate` (scope/certificate.py). -/
def mikrotik_remove_certificate_cmd (name : String) : String :=
  "/certificate remove [find name=\"" ++ name ++ "\"]"

/-! ## scope/ipv6.py -/

/-- Command built by `mikrotik_add_ipv6_address` (scope/ipv6.py). -/
def mikrotik_add_ipv6_address_cmd (address interface : String)
    (advertise eui_64 no_dad : Option Bool) (comment : Option String)
    (disabled : Option Bool) : String :=
  let cmd := "/ipv6 address add address=\"" ++ address ++
    "\" interface=\"" ++ interface ++ "\""
  let cmd := addBoolOpt cmd "advertise" advertise
  let cmd := addBoolOpt cmd "eui-64" eui_64
  let cmd := addBoolOpt cmd "no-dad" no_dad
  let cmd := addStrQ cmd "comment" comment
  let cmd := addBoolOpt cmd "disabled" disabled
  cmd

/-- Command built by `mikrotik_add_ipv6_route` (scope/ipv6.py). -/
def mikrotik_add_ipv6_route_cmd (dst_address gateway : String)
    (distance : Option Int) (comment : Option String)
    (disabled : Option Bool) : String :=
  let cmd := "/ipv6 route add dst-address=\"" ++ dst_address ++
    "\" gateway=\"" ++ gateway ++ "\""
  let cmd := addIntOpt cmd "distance" distance
  let cmd := addStrQ cmd "comment" comment
  let cmd := addBoolOpt cmd "disabled" disabled
  cmd

/-- Command built by `mikrotik_remove_ipv6_address` (scope/ipv6.py):
the caller-supplied identifier is substituted directly, with no find filter. -/
def mikrotik_remove_ipv6_address_cmd (address_id : String) : String :=
  "/ipv6 address remove " ++ address_id

/-- Command built by `mikrotik_remove_ipv6_route` (scope/ipv6.py):
the caller-supplied identifier is substituted directly, with no find filter. -/
def mikrotik_remove_ipv6_route_cmd (route_id : String) : String :=
  "/ipv6 route remove " ++ route_id

/-! ## scope/ipsec.py and scope/pppoe.py remove commands -/

/-- Command built by `mikrotik_remove_ipsec_peer` (scope/ipsec.py). -/
def mikrotik_remove_ipsec_peer_cmd (name : String) : String :=
  "/ip ipsec peer remove [find name=\"" ++ name ++ "\"]"

/-- Command built by `mikrotik_remove_pppoe_server` (scope/pppoe.py). -/
def mikrotik_remove_pppoe_server_cmd (service_name : String) : String :=
  "/interface pppoe-server server remove [find service-name=\"" ++
    service_name ++ "\"]"

/-- Command built by `mikrotik_remove_ppp_secret` (scope/pppoe.py). -/
def mikrotik_remove_ppp_secret_cmd (name : String) : String :=
  "/ppp secret remove [find name=\"" ++ name ++ "\"]"

/-- Command built by `mikrotik_remove_ppp_profile` (scope/pppoe.py). -/
def mikrotik_remove_ppp_profile_cmd (name : String) : String :=
  "/ppp profile remove [find name=\"" ++ name ++ "\"]"

/-- Command built by `mikrotik_remove_pppoe_client` (scope/pppoe.py). -/
def mikrotik_remove_pppoe_client_cmd (name : String) : String :=
  "/interface pppoe-client remove [find name=\"" ++ name ++ "\"]"

/-! ## scope/queue.py -/

/-- Command built by `mikrotik_list_simple_queues` (scope/queue.py).
The three optional filters are tried in `if/elif` order with Python
truthiness; `getD ""` is only evaluated under the matching truthy guard. -/
def mikrotik_list_simple_queues_cmd (name_filter target_filter : Option String)
    (disabled_only : Option Bool) : String :=
  let cmd := "/queue simple print"
  if pyTruthyStr name_filter then
    cmd ++ (" where name~\"" ++ name_filter.getD "" ++ "\"")
  else if pyTruthyStr target_filter then
    cmd ++ (" where target~\"" ++ target_filter.getD "" ++ "\"")
  else if pyTruthyBool disabled_only then cmd ++ " where disabled=yes"
  else cmd

/-- Command built by `mikrotik_remove_simple_queue` (scope/queue.py). -/
def mikrotik_remove_simple_queue_cmd (name : String) : String :=
  "/queue simple remove [find name=\"" ++ name ++ "\"]"

/-- Command built by `mikrotik_remove_queue_tree` (scope/queue.py). -/
def mikrotik_remove_queue_tree_cmd (name : String) : String :=
  "/queue tree remove [find name=\"" ++ name ++ "\"]"

/-- Command built by `mikrotik_remove_queue_type` (scope/queue.py). -/
def mikrotik_remove_queue_type_cmd (name : String) : String :=
  "/queue type remove [find name=\"" ++ name ++ "\"]"

/-- `mikrotik_reset_queue_counters` (scope/queue.py): the response is
fetched but never inspected; the success text is returned unconditionally. -/
def mikrotik_reset_queue_counters (device : String → String) : String :=
  let _result := device "/queue simple reset-counters"
  "Queue counters reset successfully"

/-! ## scope/system.py -/

/-- `mikrotik_system_reboot` (scope/system.py): response never inspected. -/
def mikrotik_system_reboot (device : String → String) : String :=
  let _result := device "/system reboot"
  "System reboot initiated"

/-- `mikrotik_system_shutdown` (scope/system.py): response never inspected. -/
def mikrotik_system_shutdown (device : String → String) : String :=
  let _result := device "/system shutdown"
  "System shutdown initiated"

/-- First pass of the `mikrotik_add_script` source escaping:
Python `source.replace('"', '\\"')` (single-character pattern, so it is
a per-character expansion). -/
def replaceQuote : List Char → List Char
  | [] => []
  | c :: cs =>
    if c = '"' then '\\' :: '"' :: replaceQuote cs else c :: replaceQuote cs

/-- Second pass of the `mikrotik_add_script` source escaping:
Python `.replace('\n', '\\n')`. -/
def replaceNewline : List Char → List Char
  | [] => []
  | c :: cs =>
    if c = '\n' then '\\' :: 'n' :: replaceNewline cs
    else c :: replaceNewline cs

/-- `source.replace('"', '\\"').replace('\n', '\\n')` from
`mikrotik_add_script` (scope/system.py), in source order: quotes first,
then newlines. -/
def escapeScriptSource (s : String) : String :=
  String.mk (replaceNewline (replaceQuote s.data))

/-- The claim's reading of the escaping: one simultaneous pass replacing
every `"` by `\"` and every newline by `\n`, leaving all other characters
unchanged. Proved below to coincide with the source's two sequential
`str.replace` passes. -/
def escapeSourceSimultaneous : List Char → List Char
  | [] => []
  | c :: cs =>
    if c = '"' then '\\' :: '"' :: escapeSourceSimultaneous cs
    else if c = '\n' then '\\' :: 'n' :: escapeSourceSimultaneous cs
    else c :: escapeSourceSimultaneous cs

/-- Command built by `mikrotik_add_script` (scope/system.py);
`policy` is interpolated unquoted. -/
def mikrotik_add_script_cmd (name source : String)
    (policy comment : Option String)
    (dont_require_permissions : Option Bool) : String :=
  let source_escaped := escapeScriptSource source
  let cmd := "/system script add name=\"" ++ name ++ "\" source=\"" ++
    source_escaped ++ "\""
  let cmd := addStrU cmd "policy" policy
  let cmd := addStrQ cmd "comment" comment
  let cmd := addBoolOpt cmd "dont-require-permissions" dont_require_permissions
  cmd

/-- Command built by `mikrotik_remove_scheduler` (scope/system.py). -/
def mikrotik_remove_scheduler_cmd (name : String) : String :=
  "/system scheduler remove [find name=\"" ++ name ++ "\"]"

/-- Command built by `mikrotik_remove_script` (scope/system.py). -/
def mikrotik_remove_script_cmd (name : String) : String :=
  "/system script remove [find name=\"" ++ name ++ "\"]"

/-! ## scope/routing_advanced.py -/

/-- Command built by `mikrotik_create_bgp_instance`
(scope/routing_advanced.py). The AS number is rendered as the unquoted
pair `as=<value>`. -/
def mikrotik_create_bgp_instance_cmd (name : String) (as_number : Int)
    (router_id : Option String)
    (redistribute_connected redistribute_static redistribute_ospf
      client_to_client_reflection : Option Bool)
    (comment : Option String) (disabled : Option Bool) : String :=
  let cmd := "/routing bgp instance add name=\"" ++ name ++ "\" as=" ++
    toString as_number
  let cmd := addStrQ cmd "router-id" router_id
  let cmd := addBoolOpt cmd "redistribute-connected" redistribute_connected
  let cmd := addBoolOpt cmd "redistribute-static" redistribute_static
  let cmd := addBoolOpt cmd "redistribute-ospf" redistribute_ospf
  let cmd := addBoolOpt cmd "client-to-client-reflection"
    client_to_client_reflection
  let cmd := addStrQ cmd "comment" comment
  let cmd := addBoolOpt cmd "disabled" disabled
  cmd

/-- Command built by `mikrotik_remove_bgp_instance`
(scope/routing_advanced.py). -/
def mikrotik_remove_bgp_instance_cmd (name : String) : String :=
  "/routing bgp instance remove [find name=\"" ++ name ++ "\"]"

/-- Command built by `mikrotik_remove_bgp_peer`
(scope/routing_advanced.py). -/
def mikrotik_remove_bgp_peer_cmd (name : String) : String :=
  "/routing bgp peer remove [find name=\"" ++ name ++ "\"]"

/-- Command built by `mikrotik_remove_ospf_instance`
(scope/routing_advanced.py). -/
def mikrotik_remove_ospf_instance_cmd (name : String) : String :=
  "/routing ospf instance remove [find name=\"" ++ name ++ "\"]"

/-- Command built by `mikrotik_remove_rip_instance`
(scope/routing_advanced.py). -/
def mikrotik_remove_rip_instance_cmd (name : String) : String :=
  "/routing rip instance remove [find name=\"" ++ name ++ "\"]"

/-! ## scope/snmp.py -/

/-- Command built by `mikrotik_remove_snmp_community` (scope/snmp.py). -/
def mikrotik_remove_snmp_community_cmd (name : String) : String :=
  "/snmp community remove [find name=\"" ++ name ++ "\"]"

/-! ## tools/bridge_tools.py — tool adapter dispatch

The tool handlers receive an untyped JSON-like argument bag. A required
property is read with `args["key"]` (a missing key raises `KeyError`
before the domain function is entered, so no command reaches the
connector); an optional property is read with `args.get("key")`, which
yields `None` when absent. The bag is modelled as an association list
of well-typed values (per the declared JSON schema); a raised `KeyError`
is modelled as `Except.error`. -/

inductive Arg where
  | str (s : String)
  | int (n : Int)
  | bool (b : Bool)
deriving DecidableEq

/-- Python dict lookup `args.get(key)` (keys are unique in a dict, so
first-match association-list lookup models it). -/
def lookupArg : List (String × Arg) → String → Option Arg
  | [], _ => none
  | (k, v) :: rest, key => if k = key then some v else lookupArg rest key

/-- Python `args[key]`: a missing key raises `KeyError`. -/
def getReq (args : List (String × Arg)) (key : String) : Except String Arg :=
  match lookupArg args key with
  | some v => .ok v
  | none => .error ("KeyError: " ++ key)

/-- String coercion of a bag value (Python `str()` rendering for the
off-schema cases, which never arise for schema-conforming bags). -/
def argAsStr : Arg → String
  | .str s => s
  | .int n => toString n
  | .bool b => if b then "True" else "False"

/-- `args.get(key)` read as an optional string. -/
def getOptStr (args : List (String × Arg)) (key : String) : Option String :=
  match lookupArg args key with
  | some (.str s) => some s
  | _ => none

/-- `args.get(key)` read as an optional integer. -/
def getOptInt (args : List (String × Arg)) (key : String) : Option Int :=
  match lookupArg args key with
  | some (.int n) => some n
  | _ => none

/-- `args.get(key)` read as an optional boolean. -/
def getOptBool (args : List (String × Arg)) (key : String) : Option Bool :=
  match lookupArg args key with
  | some (.bool b) => some b
  | _ => none

/-- The `mikrotik_create_bridge` entry of `get_bridge_handlers`
(tools/bridge_tools.py): required `name` via `args["name"]`, every
other property via `args.get(...)`, passed positionally. -/
def handle_mikrotik_create_bridge (device : String → String)
    (args : List (String × Arg)) : Except String String := do
  let name ← getReq args "name"
  .ok (mikrotik_create_bridge device (argAsStr name)
    (getOptInt args "mtu") (getOptStr args "arp")
    (getOptStr args "arp_timeout") (getOptStr args "ageing_time")
    (getOptInt args "priority") (getOptStr args "protocol_mode")
    (getOptBool args "vlan_filtering") (getOptStr args "comment")
    (getOptBool args "disabled"))

/-- The `mikrotik_add_bridge_port` entry of `get_bridge_handlers`
(tools/bridge_tools.py): required `bridge` then `interface` (Python
evaluates the argument expressions left to right). -/
def handle_mikrotik_add_bridge_port (device : String → String)
    (args : List (String × Arg)) : Except String String := do
  let bridge ← getReq args "bridge"
  let interface ← getReq args "interface"
  .ok (mikrotik_add_bridge_port device (argAsStr bridge) (argAsStr interface)
    (getOptInt args "pvid") (getOptInt args "priority")
    (getOptInt args "path_cost") (getOptBool args "edge")
    (getOptStr args "point_to_point") (getOptInt args "horizon")
    (getOptStr args "comment") (getOptBool args "disabled"))

/-- The `mikrotik_list_bridges` entry of `get_bridge_handlers`
(tools/bridge_tools.py): both properties optional, via `args.get(...)`. -/
def handle_mikrotik_list_bridges (device : String → String)
    (args : List (String × Arg)) : Except String String :=
  .ok (mikrotik_list_bridges device (getOptStr args "name_filter")
    (getOptBool args "disabled_only"))

/-- The `mikrotik_remove_bridge` entry of `get_bridge_handlers`
(tools/bridge_tools.py). -/
def handle_mikrotik_remove_bridge (device : String → String)
    (args : List (String × Arg)) : Except String String := do
  let name ← getReq args "name"
  .ok (mikrotik_remove_bridge device (argAsStr name))

/-! ## Theorems -/

/-- C2: every embedded create/add-style operation, invoked with only its
required parameters (all optionals `none`), builds exactly the fixed menu
path and verb followed by the required `key="value"` / `key=value` pairs in
declared parameter order, with no optional-parameter tokens; in particular
`create_bridge(name="br0")` builds exactly `/interface bridge add name="br0"`. -/
theorem claim_C2_required_only_commands :
    (∀ name, mikrotik_create_bridge_cmd name none none none none none none
        none none none = "/interface bridge add name=\"" ++ name ++ "\"")
    ∧ (∀ name interface address_pool,
        mikrotik_create_hotspot_server_cmd name interface address_pool none
          none = "/ip hotspot add name=\"" ++ name ++ "\" interface=\"" ++
            interface ++ "\" address-pool=\"" ++ address_pool ++ "\"")
    ∧ (∀ bridge interface,
        mikrotik_add_bridge_port_cmd bridge interface none none none none
          none none none none = "/interface bridge port add bridge=\"" ++
            bridge ++ "\" interface=\"" ++ interface ++ "\"")
    ∧ (∀ bridge vlan_ids,
        mikrotik_add_bridge_vlan_cmd bridge vlan_ids none none none none =
          "/interface bridge vlan add bridge=\"" ++ bridge ++
            "\" vlan-ids=" ++ vlan_ids)
    ∧ (∀ address interface,
        mikrotik_add_ipv6_address_cmd address interface none none none none
          none = "/ipv6 address add address=\"" ++ address ++
            "\" interface=\"" ++ interface ++ "\"")
    ∧ (∀ dst gw, mikrotik_add_ipv6_route_cmd dst gw none none none =
        "/ipv6 route add dst-address=\"" ++ dst ++ "\" gateway=\"" ++ gw ++
          "\"")
    ∧ (∀ name cn, mikrotik_create_certificate_cmd name cn none none none
        none none none none none none = "/certificate add name=\"" ++ name ++
          "\" common-name=\"" ++ cn ++ "\"")
    ∧ mikrotik_create_bridge_cmd "br0" none none none none none none none
        none none = "/interface bridge add name=\"br0\"" :=
  ⟨fun _ => rfl, fun _ _ _ => rfl, fun _ _ => rfl, fun _ _ => rfl,
    fun _ _ => rfl, fun _ _ => rfl, fun _ _ => rfl, rfl⟩

/-- C6: every embedded `remove_*` operation addresses its target with an
inline `[find <key>="<value>"]` filter, except `remove_ipv6_address` and
`remove_ipv6_route`, which substitute the caller-supplied opaque identifier
directly after `remove `; e.g. `remove_bridge("br0")` builds
`/interface bridge remove [find name="br0"]` and `remove_ipv6_address("*1")`
builds `/ipv6 address remove *1`. -/
theorem claim_C6_remove_commands :
    (∀ name, mikrotik_remove_bridge_cmd name =
      "/interface bridge remove [find name=\"" ++ name ++ "\"]")
    ∧ (∀ interface, mikrotik_remove_bridge_port_cmd interface =
      "/interface bridge port remove [find interface=\"" ++ interface ++
        "\"]")
    ∧ (∀ name, mikrotik_remove_certificate_cmd name =
      "/certificate remove [find name=\"" ++ name ++ "\"]")
    ∧ (∀ name, mikrotik_remove_hotspot_user_cmd name =
      "/ip hotspot user remove [find name=\"" ++ name ++ "\"]")
    ∧ (∀ user, mikrotik_remove_hotspot_active_cmd user =
      "/ip hotspot active remove [find user=\"" ++ user ++ "\"]")
    ∧ (∀ name, mikrotik_remove_ipsec_peer_cmd name =
      "/ip ipsec peer remove [find name=\"" ++ name ++ "\"]")
    ∧ (∀ sn, mikrotik_remove_pppoe_server_cmd sn =
      "/interface pppoe-server server remove [find service-name=\"" ++ sn ++
        "\"]")
    ∧ (∀ name, mikrotik_remove_ppp_secret_cmd name =
      "/ppp secret remove [find name=\"" ++ name ++ "\"]")
    ∧ (∀ name, mikrotik_remove_ppp_profile_cmd name =
      "/ppp profile remove [find name=\"" ++ name ++ "\"]")
    ∧ (∀ name, mikrotik_remove_pppoe_client_cmd name =
      "/interface pppoe-client remove [find name=\"" ++ name ++ "\"]")
    ∧ (∀ name, mikrotik_remove_simple_queue_cmd name =
      "/queue simple remove [find name=\"" ++ name ++ "\"]")
    ∧ (∀ name, mikrotik_remove_queue_tree_cmd name =
      "/queue tree remove [find name=\"" ++ name ++ "\"]")
    ∧ (∀ name, mikrotik_remove_queue_type_cmd name =
      "/queue type remove [find name=\"" ++ name ++ "\"]")
    ∧ (∀ name, mikrotik_remove_bgp_instance_cmd name =
      "/routing bgp instance remove [find name=\"" ++ name ++ "\"]")
    ∧ (∀ name, mikrotik_remove_bgp_peer_cmd name =
      "/routing bgp peer remove [find name=\"" ++ name ++ "\"]")
    ∧ (∀ name, mikrotik_remove_ospf_instance_cmd name =
      "/routing ospf instance remove [find name=\"" ++ name ++ "\"]")
    ∧ (∀ name, mikrotik_remove_rip_instance_cmd name =
      "/routing rip instance remove [find name=\"" ++ name ++ "\"]")
    ∧ (∀ name, mikrotik_remove_snmp_community_cmd name =
      "/snmp community remove [find name=\"" ++ name ++ "\"]")
    ∧ (∀ name, mikrotik_remove_scheduler_cmd name =
      "/system scheduler remove [find name=\"" ++ name ++ "\"]")
    ∧ (∀ name, mikrotik_remove_script_cmd name =
      "/system script remove [find name=\"" ++ name ++ "\"]")
    ∧ (∀ aid, mikrotik_remove_ipv6_address_cmd aid =
      "/ipv6 address remove " ++ aid)
    ∧ (∀ rid, mikrotik_remove_ipv6_route_cmd rid =
      "/ipv6 route remove " ++ rid)
    ∧ mikrotik_remove_bridge_cmd "br0" =
      "/interface bridge remove [find name=\"br0\"]"
    ∧ mikrotik_remove_ipv6_address_cmd "*1" = "/ipv6 address remove *1" :=
  ⟨fun _ => rfl, fun _ => rfl, fun _ => rfl, fun _ => rfl, fun _ => rfl,
    fun _ => rfl, fun _ => rfl, fun _ => rfl, fun _ => rfl, fun _ => rfl,
    fun _ => rfl, fun _ => rfl, fun _ => rfl, fun _ => rfl, fun _ => rfl,
    fun _ => rfl, fun _ => rfl, fun _ => rfl, fun _ => rfl, fun _ => rfl,
    fun _ => rfl, fun _ => rfl, rfl, rfl⟩

/-- C7: `mikrotik_reset_queue_counters`, `mikrotik_system_reboot` and
`mikrotik_system_shutdown` return their fixed success text for every
possible connector response, including a response the shared
classification marks as a failure. -/
theorem claim_C7_always_success :
    (∀ device, mikrotik_reset_queue_counters device =
      "Queue counters reset successfully")
    ∧ (∀ device, mikrotik_system_reboot device = "System reboot initiated")
    ∧ (∀ device, mikrotik_system_shutdown device =
      "System shutdown initiated")
    ∧ isFailureResponse "failure: connection refused" = true
    ∧ mikrotik_reset_queue_counters (fun _ => "failure: connection refused")
      = "Queue counters reset successfully"
    ∧ mikrotik_system_reboot (fun _ => "failure: connection refused") =
      "System reboot initiated"
    ∧ mikrotik_system_shutdown (fun _ => "failure: connection refused") =
      "System shutdown initiated" :=
  ⟨fun _ => rfl, fun _ => rfl, fun _ => rfl, by decide, rfl, rfl, rfl⟩

/-- C10 counterexample: `mikrotik_create_bgp_instance` with only its
required parameters renders the AS number as `as=65000`, not under the
key `as-number` as the claim states; the built command contains no
`as-number` token at all. -/
theorem claim_C10_counterexample :
    mikrotik_create_bgp_instance_cmd "i1" 65000 none none none none none
        none none = "/routing bgp instance add name=\"i1\" as=65000"
    ∧ mikrotik_create_bgp_instance_cmd "i1" 65000 none none none none none
        none none ≠ "/routing bgp instance add name=\"i1\" as-number=65000"
    ∧ strContains (mikrotik_create_bgp_instance_cmd "i1" 65000 none none
        none none none none none) "as-number" = false :=
  ⟨rfl, by decide, by decide⟩

/-- C10 amended: `mikrotik_create_bgp_instance`, invoked with only its
required parameters, builds `/routing bgp instance add` followed by
`name="<name>"` and the AS number appended as the unquoted pair
`as=<value>` (key `as`, not `as-number`), with no optional tokens. -/
theorem claim_C10_amended (name : String) (as_number : Int) :
    mikrotik_create_bgp_instance_cmd name as_number none none none none
        none none none =
      "/routing bgp instance add name=\"" ++ name ++ "\" as=" ++
        toString as_number :=
  rfl

/-- C3: for the optional boolean attribute parameters of the embedded
operations (`vlan_filtering` and `disabled` of `create_bridge`;
`advertise`, `eui_64`, `no_dad` and `disabled` of `add_ipv6_address`),
passing `true` appends `key=yes`, passing `false` appends `key=no`, and
leaving the parameter unset appends no token for that key, giving three
pairwise distinct command outcomes. -/
theorem claim_C3_boolean_three_way :
    (∀ name, mikrotik_create_bridge_cmd name none none none none none none
        (some true) none none = mikrotik_create_bridge_cmd name none none
        none none none none none none none ++ " vlan-filtering=yes")
    ∧ (∀ name, mikrotik_create_bridge_cmd name none none none none none none
        (some false) none none = mikrotik_create_bridge_cmd name none none
        none none none none none none none ++ " vlan-filtering=no")
    ∧ (∀ name, mikrotik_create_bridge_cmd name none none none none none none
        none none (some true) = mikrotik_create_bridge_cmd name none none
        none none none none none none none ++ " disabled=yes")
    ∧ (∀ name, mikrotik_create_bridge_cmd name none none none none none none
        none none (some false) = mikrotik_create_bridge_cmd name none none
        none none none none none none none ++ " disabled=no")
    ∧ (∀ a i, mikrotik_add_ipv6_address_cmd a i (some true) none none none
        none = mikrotik_add_ipv6_address_cmd a i none none none none none ++
        " advertise=yes")
    ∧ (∀ a i, mikrotik_add_ipv6_address_cmd a i (some false) none none none
        none = mikrotik_add_ipv6_address_cmd a i none none none none none ++
        " advertise=no")
    ∧ (∀ a i, mikrotik_add_ipv6_address_cmd a i none (some true) none none
        none = mikrotik_add_ipv6_address_cmd a i none none none none none ++
        " eui-64=yes")
    ∧ (∀ a i, mikrotik_add_ipv6_address_cmd a i none none (some true) none
        none = mikrotik_add_ipv6_address_cmd a i none none none none none ++
        " no-dad=yes")
    ∧ (∀ name, mikrotik_create_bridge_cmd name none none none none none none
        none none none = "/interface bridge add name=\"" ++ name ++ "\"")
    ∧ mikrotik_create_bridge_cmd "br0" none none none none none none
        (some true) none none = "/interface bridge add name=\"br0\" vlan-filtering=yes"
    ∧ mikrotik_create_bridge_cmd "br0" none none none none none none
        (some false) none none = "/interface bridge add name=\"br0\" vlan-filtering=no"
    ∧ strContains (mikrotik_create_bridge_cmd "br0" none none none none none
        none none none none) "vlan-filtering" = false
    ∧ mikrotik_create_bridge_cmd "br0" none none none none none none
        (some true) none none ≠ mikrotik_create_bridge_cmd "br0" none none
        none none none none (some false) none none
    ∧ mikrotik_create_bridge_cmd "br0" none none none none none none
        (some false) none none ≠ mikrotik_create_bridge_cmd "br0" none none
        none none none none none none none
    ∧ mikrotik_create_bridge_cmd "br0" none none none none none none
        (some true) none none ≠ mikrotik_create_bridge_cmd "br0" none none
        none none none none none none none :=
  ⟨fun _ => rfl, fun _ => rfl, fun _ => rfl, fun _ => rfl, fun _ _ => rfl,
    fun _ _ => rfl, fun _ _ => rfl, fun _ _ => rfl, fun _ => rfl, rfl, rfl,
    by decide, by decide, by decide, by decide⟩

/-- C5 counterexample: a supplied falsy optional value is dropped by the
Python-truthiness guards: `create_bridge(name="br0", mtu=0)` builds the
bare `/interface bridge add name="br0"` with no `mtu` token at all, and
likewise `create_certificate(..., key_size=0, days_valid=0)` and a
supplied empty-string `comment` produce no token, contradicting the
claim that every supplied optional parameter is appended. -/
theorem claim_C5_counterexample :
    mikrotik_create_bridge_cmd "br0" (some 0) none none none none none none
        none none = "/interface bridge add name=\"br0\""
    ∧ strContains (mikrotik_create_bridge_cmd "br0" (some 0) none none none
        none none none none none) "mtu" = false
    ∧ mikrotik_create_certificate_cmd "c1" "cn1" (some 0) (some 0) none none
        none none none none none = "/certificate add name=\"c1\" common-name=\"cn1\""
    ∧ mikrotik_create_bridge_cmd "br0" none none none none none none none
        (some "") none = "/interface bridge add name=\"br0\""
    ∧ strContains (mikrotik_create_bridge_cmd "br0" none none none none none
        none none (some "") none) "comment" = false :=
  ⟨rfl, by decide, rfl, rfl, by decide⟩

/-- C5 amended: a supplied optional parameter is appended exactly when its
guard admits it: parameters guarded by Python truthiness (`mtu`,
`key_size`, `days_valid`, `comment`, ...) are appended iff the supplied
value is truthy (nonzero / nonempty), while parameters guarded by
`is not None` (`priority`, the booleans) are appended for every supplied
value, including falsy ones such as `0`; a parameter left absent is always
omitted. -/
theorem claim_C5_amended :
    (∀ name n, mikrotik_create_bridge_cmd name (some n) none none none none
        none none none none = if n == 0 then
          "/interface bridge add name=\"" ++ name ++ "\""
        else "/interface bridge add name=\"" ++ name ++ "\"" ++
          (" mtu=" ++ toString n))
    ∧ (∀ name s, mikrotik_create_bridge_cmd name none none none none none
        none none (some s) none = if s == "" then
          "/interface bridge add name=\"" ++ name ++ "\""
        else "/interface bridge add name=\"" ++ name ++ "\"" ++
          (" comment=\"" ++ s ++ "\""))
    ∧ (∀ name cn k, mikrotik_create_certificate_cmd name cn (some k) none
        none none none none none none none = if k == 0 then
          "/certificate add name=\"" ++ name ++ "\" common-name=\"" ++ cn ++
            "\""
        else "/certificate add name=\"" ++ name ++ "\" common-name=\"" ++
          cn ++ "\"" ++ (" key-size=" ++ toString k))
    ∧ (∀ name n, mikrotik_create_bridge_cmd name none none none none
        (some n) none none none none = "/interface bridge add name=\"" ++
          name ++ "\"" ++ (" priority=" ++ toString n))
    ∧ mikrotik_create_bridge_cmd "br0" none none none none (some 0) none
        none none none = "/interface bridge add name=\"br0\" priority=0"
    ∧ mikrotik_create_bridge_cmd "br0" (some 1500) none none none none none
        none none none = "/interface bridge add name=\"br0\" mtu=1500" :=
  ⟨fun _ _ => rfl, fun _ _ => rfl, fun _ _ _ => rfl, fun _ _ => rfl, rfl,
    rfl⟩

/-- A bridge-creation success message never coincides with a
bridge-creation failure message: their first characters differ. -/
theorem bridge_success_ne_failure (name r : String) :
    "Bridge '" ++ name ++ "' created successfully" ≠
      "Failed to create bridge: " ++ r := by
  intro h
  have hd : ("Bridge '" ++ name ++ "' created successfully").data =
      ("Failed to create bridge: " ++ r).data := congrArg String.data h
  have h1 : ("Bridge '" ++ name ++ "' created successfully").data =
      'B' :: (("ridge '".data ++ name.data) ++
        "' created successfully".data) := rfl
  have h2 : ("Failed to create bridge: " ++ r).data =
      'F' :: ("ailed to create bridge: ".data ++ r.data) := rfl
  rw [h1, h2] at hd
  injection hd with hc _
  exact absurd hc (by decide)

/-- A hotspot-server-creation success message never coincides with a
hotspot-server-creation failure message: their first characters differ. -/
theorem hotspot_success_ne_failure (name r : String) :
    "Hotspot server '" ++ name ++ "' created successfully" ≠
      "Failed to create hotspot server: " ++ r := by
  intro h
  have hd : ("Hotspot server '" ++ name ++ "' created successfully").data =
      ("Failed to create hotspot server: " ++ r).data :=
    congrArg String.data h
  have h1 : ("Hotspot server '" ++ name ++ "' created successfully").data =
      'H' :: (("otspot server '".data ++ name.data) ++
        "' created successfully".data) := rfl
  have h2 : ("Failed to create hotspot server: " ++ r).data =
      'F' :: ("ailed to create hotspot server: ".data ++ r.data) := rfl
  rw [h1, h2] at hd
  injection hd with hc _
  exact absurd hc (by decide)

/-- C1: for the embedded classifying operations and every raw connector
response, the returned string is the failure form
`Failed to <action>: <raw response>` iff the lower-cased response contains
the substring `failure:` or the substring `error`; otherwise the success
string is returned. In particular `no error here, all good` classifies as
a failure. -/
theorem claim_C1_classification_iff :
    (∀ name r,
      (mikrotik_create_bridge (fun _ => r) name none none none none none
          none none none none = "Failed to create bridge: " ++ r) ↔
        isFailureResponse r = true)
    ∧ (∀ name interface pool r,
      (mikrotik_create_hotspot_server (fun _ => r) name interface pool none
          none = "Failed to create hotspot server: " ++ r) ↔
        isFailureResponse r = true)
    ∧ (∀ r, isFailureResponse r =
        (strContains (pyLower r) "failure:" || strContains (pyLower r)
          "error"))
    ∧ isFailureResponse "no error here, all good" = true
    ∧ mikrotik_create_bridge (fun _ => "no error here, all good") "br0" none
        none none none none none none none none =
      "Failed to create bridge: no error here, all good"
    ∧ isFailureResponse "bridge added" = false
    ∧ mikrotik_create_bridge (fun _ => "bridge added") "br0" none none none
        none none none none none none = "Bridge 'br0' created successfully"
    := by
  refine ⟨?_, ?_, fun _ => rfl, by decide, by decide, by decide, by decide⟩
  · intro name r
    have key : mikrotik_create_bridge (fun _ => r) name none none none none
        none none none none none =
        if isFailureResponse r then "Failed to create bridge: " ++ r
        else "Bridge '" ++ name ++ "' created successfully" := rfl
    rw [key]
    by_cases h : isFailureResponse r = true
    · simp [h]
    · simp [h]
      exact bridge_success_ne_failure name r
  · intro name interface pool r
    have key : mikrotik_create_hotspot_server (fun _ => r) name interface
        pool none none =
        if isFailureResponse r then "Failed to create hotspot server: " ++ r
        else "Hotspot server '" ++ name ++ "' created successfully" := rfl
    rw [key]
    by_cases h : isFailureResponse r = true
    · simp [h]
    · simp [h]
      exact hotspot_success_ne_failure name r

/-- C4 counterexample: with `name_filter` supplied as the empty string and
`disabled_only` supplied as `True`, `list_bridges` applies the *second*
filter (`where disabled=yes`), not the first supplied filter
(`name_filter`), because the `if name_filter:` guard is Python truthiness
and treats a supplied `""` as absent. -/
theorem claim_C4_counterexample :
    mikrotik_list_bridges_cmd (some "") (some true) =
      "/interface bridge print where disabled=yes"
    ∧ mikrotik_list_bridges_cmd (some "") (some true) ≠
      "/interface bridge print where name~\"\""
    ∧ strContains (mikrotik_list_bridges_cmd (some "") (some true)) "name~"
      = false :=
  ⟨rfl, by decide, by decide⟩

/-- C4 amended: every list-style operation with several optional filters
applies at most one `where` clause — the first filter that is supplied
with a *truthy* value (a nonempty string, or `True`) in the declared
`if/elif` order; a filter supplied with a falsy value (`""` or `False`)
is skipped exactly like an absent one, and filters are never combined:
e.g. `list_bridges(name_filter="br", disabled_only=True)` builds
`/interface bridge print where name~"br"` with no `disabled=yes` clause. -/
theorem claim_C4_amended :
    (∀ nf donly, mikrotik_list_bridges_cmd nf donly =
        "/interface bridge print"
      ∨ (∃ s, nf = some s ∧ s ≠ "" ∧ mikrotik_list_bridges_cmd nf donly =
          "/interface bridge print" ++ (" where name~\"" ++ s ++ "\""))
      ∨ ((nf = none ∨ nf = some "") ∧ donly = some true ∧
          mikrotik_list_bridges_cmd nf donly =
            "/interface bridge print where disabled=yes"))
    ∧ (∀ nf tf donly, mikrotik_list_simple_queues_cmd nf tf donly =
        "/queue simple print"
      ∨ (∃ s, nf = some s ∧ s ≠ "" ∧
          mikrotik_list_simple_queues_cmd nf tf donly =
            "/queue simple print" ++ (" where name~\"" ++ s ++ "\""))
      ∨ ((nf = none ∨ nf = some "") ∧ (∃ t, tf = some t ∧ t ≠ "" ∧
          mikrotik_list_simple_queues_cmd nf tf donly =
            "/queue simple print" ++ (" where target~\"" ++ t ++ "\"")))
      ∨ ((nf = none ∨ nf = some "") ∧ (tf = none ∨ tf = some "") ∧
          donly = some true ∧ mikrotik_list_simple_queues_cmd nf tf donly =
            "/queue simple print where disabled=yes"))
    ∧ mikrotik_list_bridges_cmd (some "br") (some true) =
      "/interface bridge print where name~\"br\""
    ∧ strContains (mikrotik_list_bridges_cmd (some "br") (some true))
      "disabled" = false
    ∧ mikrotik_list_simple_queues_cmd (some "q1") (some "10.0.0.1")
        (some true) = "/queue simple print where name~\"q1\"" := by
  refine ⟨?_, ?_, by decide, by decide, by decide⟩
  · intro nf donly
    rcases nf with _ | s
    · rcases donly with _ | b
      · exact Or.inl rfl
      · cases b
        · exact Or.inl rfl
        · exact Or.inr (Or.inr ⟨Or.inl rfl, rfl, rfl⟩)
    · by_cases hs : s = ""
      · subst hs
        rcases donly with _ | b
        · exact Or.inl rfl
        · cases b
          · exact Or.inl rfl
          · exact Or.inr (Or.inr ⟨Or.inr rfl, rfl, rfl⟩)
      · refine Or.inr (Or.inl ⟨s, rfl, hs, ?_⟩)
        simp [mikrotik_list_bridges_cmd, pyTruthyStr, hs]
  · intro nf tf donly
    rcases nf with _ | s
    · rcases tf with _ | t
      · rcases donly with _ | b
        · exact Or.inl rfl
        · cases b
          · exact Or.inl rfl
          · exact Or.inr (Or.inr (Or.inr ⟨Or.inl rfl, Or.inl rfl, rfl,
              rfl⟩))
      · by_cases ht : t = ""
        · subst ht
          rcases donly with _ | b
          · exact Or.inl rfl
          · cases b
            · exact Or.inl rfl
            · exact Or.inr (Or.inr (Or.inr ⟨Or.inl rfl, Or.inr rfl, rfl,
                rfl⟩))
        · refine Or.inr (Or.inr (Or.inl ⟨Or.inl rfl, t, rfl, ht, ?_⟩))
          simp [mikrotik_list_simple_queues_cmd, pyTruthyStr, ht]
    · by_cases hs : s = ""
      · subst hs
        rcases tf with _ | t
        · rcases donly with _ | b
          · exact Or.inl rfl
          · cases b
            · exact Or.inl rfl
            · exact Or.inr (Or.inr (Or.inr ⟨Or.inr rfl, Or.inl rfl, rfl,
                rfl⟩))
        · by_cases ht : t = ""
          · subst ht
            rcases donly with _ | b
            · exact Or.inl rfl
            · cases b
              · exact Or.inl rfl
              · exact Or.inr (Or.inr (Or.inr ⟨Or.inr rfl, Or.inr rfl, rfl,
                  rfl⟩))
          · refine Or.inr (Or.inr (Or.inl ⟨Or.inr rfl, t, rfl, ht, ?_⟩))
            simp [mikrotik_list_simple_queues_cmd, pyTruthyStr, ht]
      · refine Or.inr (Or.inl ⟨s, rfl, hs, ?_⟩)
        simp [mikrotik_list_simple_queues_cmd, pyTruthyStr, hs]

/-- Replacing newlines leaves a list headed by a non-newline character
headed by that same character. -/
theorem replaceNewline_cons_of_ne (c : Char) (cs : List Char)
    (h : c ≠ '\n') : replaceNewline (c :: cs) = c :: replaceNewline cs := by
  simp [replaceNewline, h]

/-- The source's two sequential replace passes (quotes first, then
newlines) coincide with the single simultaneous pass. -/
theorem escape_passes_commute (l : List Char) :
    replaceNewline (replaceQuote l) = escapeSourceSimultaneous l := by
  induction l with
  | nil => rfl
  | cons c cs ih =>
    by_cases h1 : c = '"'
    · subst h1
      rw [show replaceQuote ('"' :: cs) = '\\' :: '"' :: replaceQuote cs
        from by simp [replaceQuote]]
      rw [replaceNewline_cons_of_ne _ _ (by decide),
        replaceNewline_cons_of_ne _ _ (by decide)]
      rw [show escapeSourceSimultaneous ('"' :: cs) =
        '\\' :: '"' :: escapeSourceSimultaneous cs
        from by simp [escapeSourceSimultaneous]]
      rw [ih]
    · by_cases h2 : c = '\n'
      · subst h2
        rw [show replaceQuote ('\n' :: cs) = '\n' :: replaceQuote cs
          from by simp [replaceQuote]]
        rw [show replaceNewline ('\n' :: replaceQuote cs) =
          '\\' :: 'n' :: replaceNewline (replaceQuote cs)
          from by simp [replaceNewline]]
        rw [show escapeSourceSimultaneous ('\n' :: cs) =
          '\\' :: 'n' :: escapeSourceSimultaneous cs
          from by simp [escapeSourceSimultaneous]]
        rw [ih]
      · rw [show replaceQuote (c :: cs) = c :: replaceQuote cs
          from by simp [replaceQuote, h1]]
        rw [replaceNewline_cons_of_ne _ _ h2]
        rw [show escapeSourceSimultaneous (c :: cs) =
          c :: escapeSourceSimultaneous cs
          from by simp [escapeSourceSimultaneous, h1, h2]]
        rw [ih]

/-- C9: `mikrotik_add_script` escapes the `source` text by replacing every
double quote with backslash-quote and every real newline with the
two-character sequence backslash-n, leaving all other characters
unchanged, and embeds the escaped text as `source="..."`; e.g. the source
`say "hi"<newline>bye` appears in the command as `say \"hi\"\nbye`. -/
theorem claim_C9_script_source_escaping :
    (∀ s, escapeScriptSource s = String.mk (escapeSourceSimultaneous s.data))
    ∧ escapeScriptSource "say \"hi\"\nbye" = "say \\\"hi\\\"\\nbye"
    ∧ (∀ name source, mikrotik_add_script_cmd name source none none none =
        "/system script add name=\"" ++ name ++ "\" source=\"" ++
          escapeScriptSource source ++ "\"")
    ∧ mikrotik_add_script_cmd "s1" "say \"hi\"\nbye" none none none =
      "/system script add name=\"s1\" source=\"say \\\"hi\\\"\\nbye\"" := by
  refine ⟨?_, by decide, fun _ _ => rfl, by decide⟩
  intro s
  unfold escapeScriptSource
  exact congrArg String.mk (escape_passes_commute s.data)

/-- C8: a bridge tool handler given an argument bag missing one of its
required properties fails with the `KeyError` of the direct lookup before
the domain function runs — its result does not depend on the connector
oracle at all, so no command is submitted — while absent optional
properties are passed through as absent (`none`) without error. -/
theorem claim_C8_required_argument_enforcement :
    (∀ device args, lookupArg args "name" = none →
      handle_mikrotik_create_bridge device args = .error "KeyError: name")
    ∧ (∀ args, lookupArg args "name" = none → ∀ device device2,
      handle_mikrotik_create_bridge device args =
        handle_mikrotik_create_bridge device2 args)
    ∧ (∀ device args, lookupArg args "bridge" = none →
      handle_mikrotik_add_bridge_port device args =
        .error "KeyError: bridge")
    ∧ (∀ device args v, lookupArg args "bridge" = some v →
      lookupArg args "interface" = none →
      handle_mikrotik_add_bridge_port device args =
        .error "KeyError: interface")
    ∧ (∀ device args, lookupArg args "name" = none →
      handle_mikrotik_remove_bridge device args = .error "KeyError: name")
    ∧ (∀ device, handle_mikrotik_create_bridge device [("name", .str "br0")]
        = .ok (mikrotik_create_bridge device "br0" none none none none none
          none none none none))
    ∧ (∀ device, handle_mikrotik_list_bridges device [] =
        .ok (mikrotik_list_bridges device none none)) := by
  refine ⟨?_, ?_, ?_, ?_, ?_, fun _ => rfl, fun _ => rfl⟩
  · intro device args h
    simp [handle_mikrotik_create_bridge, getReq, h, Except.bind, Bind.bind]
  · intro args h device device2
    simp [handle_mikrotik_create_bridge, getReq, h, Except.bind, Bind.bind]
  · intro device args h
    simp [handle_mikrotik_add_bridge_port, getReq, h, Except.bind,
      Bind.bind]
  · intro device args v hv h
    simp [handle_mikrotik_add_bridge_port, getReq, hv, h, Except.bind,
      Bind.bind]
  · intro device args h
    simp [handle_mikrotik_remove_bridge, getReq, h, Except.bind, Bind.bind]

/-- C8 witness: on the empty argument bag the `mikrotik_create_bridge`
handler fails with `KeyError: name`, and on a bag holding only `bridge`
the `mikrotik_add_bridge_port` handler fails with `KeyError: interface`. -/
theorem claim_C8_witness :
    handle_mikrotik_create_bridge (fun _ => "should never be consulted") []
        = .error "KeyError: name"
    ∧ handle_mikrotik_add_bridge_port (fun _ => "should never be consulted")
        [("bridge", .str "br0")] = .error "KeyError: interface" :=
  ⟨claim_C8_required_argument_enforcement.1
      (fun _ => "should never be consulted") [] rfl,
    claim_C8_required_argument_enforcement.2.2.2.1
      (fun _ => "should never be consulted") [("bridge", .str "br0")]
      (.str "br0") rfl rfl⟩

end MikrotikMCP








